import Mathlib

/-!
Verification development for the LDAP / LAPSv2 module (`cme/protocols/ldap/laps.py`).

The module is shallowly embedded: pure string manipulation (hash splitting,
baseDN construction, Python `str.split` error-code extraction) is translated
to executable Lean functions; the external collaborators (the impacket LDAP
client, the DCERPC transport, the pyasn1 decoder and the dpapi-ng crypto
primitives) are modelled as oracle parameters, and the control flow of the
source (try/except structure, retry-on-strongerAuthRequired, the RPC
connect/bind sequence, the decryption pipeline) is translated step by step.
Raised Python exceptions are modelled with `Except`; a function that the
source lets raise to its caller is embedded as returning `Except.error`.
-/

/-- Byte strings are lists of naturals (each intended to be `< 256`). -/
abbrev Bytes := List Nat

/-- Python exception classes that the embedded code can raise. -/
inductive PyErr where
  | indexError
  | typeError
  | valueError
  | attributeError
  | unicodeDecodeError
  | osErr (msg : String)
  | kerbErr (msg : String)
  | sessionErr (msg : String)
  | decodeErr (msg : String)
  | cryptoErr (msg : String)
deriving DecidableEq, Repr

/-! ### Python string primitives, embedded executably over `List Char` -/

/-- Whitespace characters recognised by Python `str.split()` with no argument. -/
def pyIsSpace (c : Char) : Bool :=
  c = ' ' || c = '\t' || c = '\n' || c = '\r' || c = '\x0b' || c = '\x0c'

/-- Helper for `pySplitWs`: accumulates the current token (reversed). -/
def pySplitWsAux : List Char → List Char → List String
  | [], acc => if acc.isEmpty then [] else [String.mk acc.reverse]
  | c :: cs, acc =>
    if pyIsSpace c then
      if acc.isEmpty then pySplitWsAux cs [] else String.mk acc.reverse :: pySplitWsAux cs []
    else
      pySplitWsAux cs (c :: acc)

/-- Python `s.split()`: split on runs of whitespace, discarding empty tokens. -/
def pySplitWs (s : String) : List String :=
  pySplitWsAux s.data []

/-- Helper for `pySplitOnChar`. -/
def pySplitOnCharAux : List Char → Char → List Char → List String
  | [], _, acc => [String.mk acc.reverse]
  | c :: cs, sep, acc =>
    if c = sep then String.mk acc.reverse :: pySplitOnCharAux cs sep []
    else pySplitOnCharAux cs sep (c :: acc)

/-- Python `s.split(sep)` for a one-character separator (used with `":"` and `"."`). -/
def pySplitOnChar (s : String) (sep : Char) : List String :=
  pySplitOnCharAux s.data sep []

/-- Does `pre` occur at the head of `l`? -/
def listStartsWith : List Char → List Char → Bool
  | [], _ => true
  | _ :: _, [] => false
  | a :: as, b :: bs => a = b && listStartsWith as bs

/-- Helper for `pyContains`: substring occurrence over char lists. -/
def listContainsSub : List Char → List Char → Bool
  | hay, needle =>
    listStartsWith needle hay ||
      match hay with
      | [] => false
      | _ :: t => listContainsSub t needle

/-- Python `s.find(sub) != -1` (equivalently `sub in s`). -/
def pyContains (s sub : String) : Bool :=
  listContainsSub s.data sub.data

/-- Python `s[:-1]`: drop the final character (identity-like on `""` gives `""`). -/
def strDropLast (s : String) : String :=
  String.mk (s.data.take (s.data.length - 1))

/-- Python `s[-2]` on a list of tokens: second-to-last element (defaulting is
irrelevant because callers first check the length). -/
def secondToLast (l : List String) : String :=
  l.getD (l.length - 2) ""

/-! ### UTF-16LE and UTF-8 codecs (model of the Python codecs, BMP/ASCII range) -/

/-- UTF-16 little-endian encoding of a string whose characters lie in the
Basic Multilingual Plane: each character becomes two bytes, low byte first. -/
def utf16leEncode (s : String) : Bytes :=
  s.data.flatMap (fun c => [c.toNat % 256, c.toNat / 256])

/-- Helper for `utf16leDecode`: pair up bytes, failing on odd length. -/
def utf16leDecodeAux : Bytes → Option (List Char)
  | [] => some []
  | [_] => none
  | lo :: hi :: rest =>
    (utf16leDecodeAux rest).map (fun cs => Char.ofNat (lo + 256 * hi) :: cs)

/-- Python `bytes.decode("utf-16le")`, modelled for BMP code units: two bytes
per character, low byte first; odd-length input raises (returns `none`). -/
def utf16leDecode (bs : Bytes) : Option String :=
  (utf16leDecodeAux bs).map String.mk

/-- Python `bytes.decode("utf-8")`, modelled on the ASCII subset (SID strings
such as `S-1-5-21-...` are ASCII). -/
def utf8Decode (bs : Bytes) : Except PyErr String :=
  if bs.all (fun b => b < 128) then .ok (String.mk (bs.map Char.ofNat))
  else .error .unicodeDecodeError

/-! ### The fixed LDAP status table and the failure-classification handler -/

/-- The module-level `ldap_error_status` dictionary, verbatim from the source. -/
def ldap_error_status : List (String × String) :=
  [("1", "STATUS_NOT_SUPPORTED"),
   ("533", "STATUS_ACCOUNT_DISABLED"),
   ("701", "STATUS_ACCOUNT_EXPIRED"),
   ("531", "STATUS_ACCOUNT_RESTRICTION"),
   ("530", "STATUS_INVALID_LOGON_HOURS"),
   ("532", "STATUS_PASSWORD_EXPIRED"),
   ("773", "STATUS_PASSWORD_MUST_CHANGE"),
   ("775", "USER_ACCOUNT_LOCKED"),
   ("50", "LDAP_INSUFFICIENT_ACCESS"),
   ("KDC_ERR_CLIENT_REVOKED", "KDC_ERR_CLIENT_REVOKED"),
   ("KDC_ERR_PREAUTH_FAILED", "KDC_ERR_PREAUTH_FAILED")]

/-- Python `errorCode in ldap_error_status` / `ldap_error_status[errorCode]`. -/
def lookupStatus (code : String) : Option String :=
  (ldap_error_status.find? (fun p => p.1 = code)).map Prod.snd

/-- The error-code extraction expression `str(e).split()[-2][:-1]` of the
source handlers: second-to-last whitespace token with its last character
dropped; raises `IndexError` when fewer than two tokens exist. -/
def pyExtractErrorCode (e : String) : Except PyErr String :=
  if (pySplitWs e).length < 2 then .error .indexError
  else .ok (strDropLast (secondToLast (pySplitWs e)))

/-- Log records emitted through the `CMEAdapter` logger. -/
inductive LogEntry where
  | info (msg : String)
  | fail (msg : String) (color : String)
  | debug (msg : String)
deriving DecidableEq, Repr

/-- The f-string `f"{domain}\\{username}:{secret} {cls}"` used by the fail logs. -/
def failMsg (domain username secret cls : String) : String :=
  domain ++ "\\" ++ username ++ ":" ++ secret ++ " " ++ cls

/-- Python `password if password else ntlm_hash`. -/
def secretOf (password ntlm_hash : String) : String :=
  if password ≠ "" then password else ntlm_hash

/-- The fail-record construction of the rejection handlers: classify the
extracted code against `ldap_error_status` and build the record — the table
entry and magenta when the code is known, empty classification and red
otherwise. -/
def pyFailEntry (domain username secret errorCode : String) : LogEntry :=
  match lookupStatus errorCode with
  | some cls => .fail (failMsg domain username secret cls) "magenta"
  | none => .fail (failMsg domain username secret "") "red"

/-- The authentication-rejection handler body shared verbatim by all four
`except ldap_impacket.LDAPSessionError` sites (`laps.py` lines 97-108 and
161-172): extract the code with `str(e).split()[-2][:-1]` (which raises
`IndexError` when fewer than two whitespace tokens exist) and emit one fail
record built by `pyFailEntry`. -/
def classifyFail (domain username secret e : String) : Except PyErr LogEntry :=
  match pyExtractErrorCode e with
  | .error pe => .error pe
  | .ok errorCode => .ok (pyFailEntry domain username secret errorCode)

/-! ### Credential normalisation and baseDN construction -/

/-- The hash-splitting prologue of `kerberos_login` / `auth_login`:
`if ntlm_hash and ntlm_hash.find(":") != -1: lmhash, nthash = ntlm_hash.split(":")`
(two-element destructuring raises `ValueError` on more than one colon),
`elif ntlm_hash: nthash = ntlm_hash`. Returns `(lmhash, nthash)`. -/
def parseNtlmHash (ntlm_hash : String) : Except PyErr (String × String) :=
  if ntlm_hash ≠ "" ∧ pyContains ntlm_hash ":" then
    match pySplitOnChar ntlm_hash ':' with
    | [l, n] => .ok (l, n)
    | _ => .error .valueError
  else if ntlm_hash ≠ "" then .ok ("", ntlm_hash)
  else .ok ("", "")

/-- baseDN construction: `"dc=" + label + ","` for each dot-separated label of
the domain, with the final comma removed. -/
def makeBaseDN (domain : String) : String :=
  strDropLast (String.join ((pySplitOnChar domain '.').map (fun p => "dc=" ++ p ++ ",")))

/-! ### The directory-session establisher (`LDAPConnect`) -/

/-- Which impacket bind method an attempt invokes: `login` (password/hash) or
`kerberosLogin` (ticket-based). -/
inductive AuthMethod where
  | loginM
  | kerberosLoginM
deriving DecidableEq, Repr

/-- One bind attempt as seen by the impacket collaborator: the connection URL,
baseDN and destination IP passed to `LDAPConnection`, the method invoked, and
every argument the source passes to that method. `none` fields are arguments
the source does not pass at that call site. -/
structure Attempt where
  url : String
  baseDN : String
  dstIp : Option String
  method : AuthMethod
  username : String
  password : String
  domain : String
  lmhash : String
  nthash : String
  aesKey : Option String
  kdcHost : Option String
  useCache : Option Bool
deriving DecidableEq, Repr

/-- The outcome the impacket collaborator produces for one bind attempt. -/
inductive BindResult where
  | ok
  | sessionError (msg : String)
  | osError (msg : String)
  | kerbError (msg : String)
deriving DecidableEq, Repr

/-- The directory-service collaborator: a deterministic response per attempt. -/
def LdapOracle := Attempt → BindResult

/-- Return value of a login method: an open connection (identified by the URL
it was opened on) or Python `False`. -/
inductive LoginRet where
  | conn (url : String)
  | failedFalse
deriving DecidableEq, Repr

deriving instance DecidableEq for Except

/-- Observable outcome of one `auth_login` / `kerberos_login` call: the
returned value (or the uncaught exception), the bind attempts performed in
order, and the log records emitted. -/
structure LoginOutcome where
  result : Except PyErr LoginRet
  attempts : List Attempt
  logs : List LogEntry
deriving DecidableEq, Repr

/-- The debug message of the `except OSError` handlers. -/
def kdcHintMsg (domain username secret : String) : String :=
  domain ++ "\\" ++ username ++ ":" ++ secret ++
    " Error connecting to the domain, please add option --kdcHost with the FQDN of the domain controller"

/-- The first bind attempt of `auth_login`: `LDAPConnection(f"ldap://{domain}",
baseDN, domain)` followed by `login(username, password, domain, lmhash, nthash)`. -/
def authAttempt1 (domain username password lmhash nthash : String) : Attempt :=
  { url := "ldap://" ++ domain, baseDN := makeBaseDN domain, dstIp := some domain,
    method := .loginM, username, password, domain, lmhash, nthash,
    aesKey := none, kdcHost := none, useCache := none }

/-- The retry attempt of `auth_login`: identical arguments over `ldaps://`. -/
def authAttempt2 (domain username password lmhash nthash : String) : Attempt :=
  { authAttempt1 domain username password lmhash nthash with url := "ldaps://" ++ domain }

/-- `LDAPConnect.auth_login`: plaintext-port bind, single retry over `ldaps`
on a `strongerAuthRequired` session error, classification of other session
errors, debug-and-return-False on `OSError`. Session errors of the retry are
classified by the same handler; other exception kinds raised during the retry
are not caught by any handler and propagate. -/
def auth_login (oracle : LdapOracle) (domain username password ntlm_hash : String) :
    LoginOutcome :=
  match parseNtlmHash ntlm_hash with
  | .error pe => { result := .error pe, attempts := [], logs := [] }
  | .ok (lmhash, nthash) =>
    let secret := secretOf password ntlm_hash
    let a1 := authAttempt1 domain username password lmhash nthash
    match oracle a1 with
    | .ok => { result := .ok (.conn a1.url), attempts := [a1], logs := [] }
    | .sessionError e1 =>
      if pyContains e1 "strongerAuthRequired" then
        let a2 := authAttempt2 domain username password lmhash nthash
        match oracle a2 with
        | .ok => { result := .ok (.conn a2.url), attempts := [a1, a2], logs := [] }
        | .sessionError e2 =>
          match classifyFail domain username secret e2 with
          | .error pe => { result := .error pe, attempts := [a1, a2], logs := [] }
          | .ok entry => { result := .ok .failedFalse, attempts := [a1, a2], logs := [entry] }
        | .osError m => { result := .error (.osErr m), attempts := [a1, a2], logs := [] }
        | .kerbError m => { result := .error (.kerbErr m), attempts := [a1, a2], logs := [] }
      else
        match classifyFail domain username secret e1 with
        | .error pe => { result := .error pe, attempts := [a1], logs := [] }
        | .ok entry => { result := .ok .failedFalse, attempts := [a1], logs := [entry] }
    | .osError _ =>
      { result := .ok .failedFalse, attempts := [a1],
        logs := [.debug (kdcHintMsg domain username secret)] }
    | .kerbError m => { result := .error (.kerbErr m), attempts := [a1], logs := [] }

/-- The first bind attempt of `kerberos_login`: `LDAPConnection(f"ldap://{kdcHost}",
baseDN)` followed by `kerberosLogin(username, password, domain, lmhash, nthash,
aesKey, kdcHost=kdcHost, useCache=False)`. -/
def kerbAttempt1 (domain username password lmhash nthash aesKey kdc : String) : Attempt :=
  { url := "ldap://" ++ kdc, baseDN := makeBaseDN domain, dstIp := none,
    method := .kerberosLoginM, username, password, domain, lmhash, nthash,
    aesKey := some aesKey, kdcHost := some kdc, useCache := some false }

/-- The retry attempt of `kerberos_login`: `ldaps://` URL, and the source
invokes `login` (not `kerberosLogin`) with the same credential arguments. -/
def kerbAttempt2 (domain username password lmhash nthash aesKey kdc : String) : Attempt :=
  { kerbAttempt1 domain username password lmhash nthash aesKey kdc with
    url := "ldaps://" ++ kdc, method := .loginM }

/-- `LDAPConnect.kerberos_login`: `kdcHost` is replaced by the domain when the
caller passes `None`; a `strongerAuthRequired` session error triggers one
retry over `ldaps` (via `login`); other session errors are classified;
`OSError` yields a debug record and `False`; `KerberosError` yields a fail
record and `False`. The `useCache` parameter of the function is never read:
both call sites pass the literal `useCache=False`. -/
def kerberos_login (oracle : LdapOracle) (domain username password ntlm_hash aesKey : String)
    (kdcHost : Option String) (_useCache : Bool) : LoginOutcome :=
  let kdc := kdcHost.getD domain
  match parseNtlmHash ntlm_hash with
  | .error pe => { result := .error pe, attempts := [], logs := [] }
  | .ok (lmhash, nthash) =>
    let secret := secretOf password ntlm_hash
    let a1 := kerbAttempt1 domain username password lmhash nthash aesKey kdc
    match oracle a1 with
    | .ok => { result := .ok (.conn a1.url), attempts := [a1], logs := [] }
    | .sessionError e1 =>
      if pyContains e1 "strongerAuthRequired" then
        let a2 := kerbAttempt2 domain username password lmhash nthash aesKey kdc
        match oracle a2 with
        | .ok => { result := .ok (.conn a2.url), attempts := [a1, a2], logs := [] }
        | .sessionError e2 =>
          match classifyFail domain username secret e2 with
          | .error pe => { result := .error pe, attempts := [a1, a2], logs := [] }
          | .ok entry => { result := .ok .failedFalse, attempts := [a1, a2], logs := [entry] }
        | .osError m => { result := .error (.osErr m), attempts := [a1, a2], logs := [] }
        | .kerbError m => { result := .error (.kerbErr m), attempts := [a1, a2], logs := [] }
      else
        match classifyFail domain username secret e1 with
        | .error pe => { result := .error pe, attempts := [a1], logs := [] }
        | .ok entry => { result := .ok .failedFalse, attempts := [a1], logs := [entry] }
    | .osError _ =>
      { result := .ok .failedFalse, attempts := [a1],
        logs := [.debug (kdcHintMsg domain username secret)] }
    | .kerbError m =>
      { result := .ok .failedFalse, attempts := [a1],
        logs := [.fail (failMsg domain username secret m) "red"] }

/-! ### The remote key-service client (`LAPSv2Extract.rpc_connect`) -/

/-- DCERPC auth-level constant `RPC_C_AUTHN_LEVEL_PKT_INTEGRITY`. -/
def RPC_C_AUTHN_LEVEL_PKT_INTEGRITY : Nat := 5

/-- DCERPC auth-level constant `RPC_C_AUTHN_LEVEL_PKT_PRIVACY`. -/
def RPC_C_AUTHN_LEVEL_PKT_PRIVACY : Nat := 6

/-- Observable operations performed on the RPC transport and channel, in order. -/
inductive RpcEvent where
  | setCredentials (username password domain lmhash nthash : String)
  | setKerberos (kdcHost : String)
  | setRemoteHost (host : String)
  | setAuthLevel (lvl : Nat)
  | connect
  | bind
deriving DecidableEq, Repr

/-- The DCERPC channel handle: its current auth level (a single scalar that
each `set_auth_level` call replaces) and the trace of operations so far. -/
structure Dce where
  authLevel : Nat
  trace : List RpcEvent
deriving DecidableEq, Repr

/-- `dce.set_auth_level(lvl)`: replaces the auth level and records the call. -/
def set_auth_level (d : Dce) (lvl : Nat) : Dce :=
  { authLevel := lvl, trace := d.trace ++ [.setAuthLevel lvl] }

/-! ### CMS / ASN.1 data model of the encrypted blob -/

/-- Schema-less ASN.1 value as produced by `decoder.decode` without a spec:
constructed values are sequences of components, primitive values carry octets. -/
inductive Asn1 where
  | seq (items : List Asn1)
  | oct (bs : Bytes)
deriving Repr

/-- pyasn1 component indexing (`value[i]` / `value['field-i']`); out-of-range
raises, and indexing into a primitive raises. -/
def asn1Index (a : Asn1) (i : Nat) : Except PyErr Asn1 :=
  match a with
  | .seq items =>
    match items.get? i with
    | some x => .ok x
    | none => .error .indexError
  | .oct _ => .error .typeError

/-- pyasn1 `.asOctets()` (composed with `bytes(...)`). -/
def asOctets : Asn1 → Except PyErr Bytes
  | .oct bs => .ok bs
  | .seq _ => .error .typeError

/-- The SID extraction `tmp['field-1'][0][0][1].asOctets()` from the decoded
key-attribute structure (`laps.py` line 242). -/
def extractSidBytes (tmp : Asn1) : Except PyErr Bytes := do
  let t1 ← asn1Index tmp 1
  let t2 ← asn1Index t1 0
  let t3 ← asn1Index t2 0
  let t4 ← asn1Index t3 1
  asOctets t4

/-- `rfc5652.ContentInfo` as consumed by the pipeline: its `content` field. -/
structure ContentInfo where
  content : Bytes
deriving DecidableEq, Repr

/-- The `kekid['other']` field holding the encoded key attributes. -/
structure KEKIdentifierOther where
  keyAttr : Bytes
deriving DecidableEq, Repr

/-- `KEKIdentifier`: the opaque `keyIdentifier` octets plus the `other` field. -/
structure KEKIdentifier where
  keyIdentifier : Bytes
  other : KEKIdentifierOther
deriving DecidableEq, Repr

/-- `KEKRecipientInfo`: key identifier and the wrapped content-encryption key. -/
structure KEKRecipientInfo where
  kekid : KEKIdentifier
  encryptedKey : Bytes
deriving DecidableEq, Repr

/-- One entry of `EnvelopedData.recipientInfos`, accessed via `['kekri']`. -/
structure RecipientInfo where
  kekri : KEKRecipientInfo
deriving DecidableEq, Repr

/-- `contentEncryptionAlgorithm` with its `parameters` octets (the encoded IV). -/
structure ContentEncryptionAlgorithm where
  parameters : Bytes
deriving DecidableEq, Repr

/-- `EncryptedContentInfo` as consumed by the pipeline. -/
structure EncryptedContentInfo where
  contentEncryptionAlgorithm : ContentEncryptionAlgorithm
deriving DecidableEq, Repr

/-- `rfc5652.EnvelopedData` as consumed by the pipeline. -/
structure EnvelopedData where
  recipientInfos : List RecipientInfo
  encryptedContentInfo : EncryptedContentInfo
deriving DecidableEq, Repr

/-- The parsed `KeyIdentifier` structure from `impacket.dpapi_ng`. -/
structure KeyIdentifierS where
  L0Index : Int
  L1Index : Int
  L2Index : Int
  RootKeyId : Bytes
deriving DecidableEq, Repr

/-- The arguments of one `GkdiGetKey` invocation. -/
structure GkdiCall where
  target_sd : Bytes
  l0 : Int
  l1 : Int
  l2 : Int
  root_key_id : Bytes
deriving DecidableEq, Repr

/-- The parsed `GroupKeyEnvelope` (root-key material), kept abstract. -/
structure GKE where
  raw : Bytes
deriving DecidableEq, Repr

/-- The external collaborators of the pipeline (impacket, pyasn1, dpapi-ng
primitives, the endpoint mapper and the remote key service), each consumed
through its call contract; fallible collaborators return `Except`. -/
structure Collab where
  unpackBlob : Bytes → Except PyErr Bytes
  decodeContentInfo : Bytes → Except PyErr (ContentInfo × Bytes)
  decodeEnvelopedData : Bytes → Except PyErr (EnvelopedData × Bytes)
  parseKeyIdentifier : Bytes → Except PyErr KeyIdentifierS
  decodeAsn1 : Bytes → Except PyErr (Asn1 × Bytes)
  create_sd : String → Bytes
  hept_map : String → Except PyErr String
  connectResult : Except String Unit
  bindResult : Except String Unit
  getKey : GkdiCall → Except PyErr (List Bytes)
  parseGKE : Bytes → Except PyErr GKE
  compute_kek : GKE → KeyIdentifierS → Bytes
  unwrap_cek : Bytes → Bytes → Except PyErr Bytes
  decrypt_plaintext : Bytes → Bytes → Bytes → Except PyErr Bytes

/-- `LAPSv2Extract.rpc_connect`: endpoint-map the GKDI interface, configure
the transport (credentials, optional Kerberos, remote host), obtain the
channel, call `set_auth_level` with PKT_INTEGRITY and then PKT_PRIVACY,
connect, and bind. A connect failure is caught, logged and turned into
`None`. A bind failure enters the `except` handler whose first statement is
`traceback.self.logger.info_stack()` — the attribute lookup `traceback.self`
itself raises `AttributeError`, so the handler never reaches its
`return None` and the call raises instead. -/
def rpc_connect (c : Collab) (username password domain lmhash nthash : String)
    (doKerberos : Bool) (dcHost : String) : Except PyErr (Option Dce) :=
  match c.hept_map dcHost with
  | .error pe => .error pe
  | .ok _stringBinding =>
    let tTrace : List RpcEvent :=
      [.setCredentials username password domain lmhash nthash] ++
        (if doKerberos then [.setKerberos dcHost] else []) ++
        (if dcHost ≠ "" then [.setRemoteHost dcHost] else [])
    let dce0 : Dce := { authLevel := 0, trace := tTrace }
    let dce1 := set_auth_level dce0 RPC_C_AUTHN_LEVEL_PKT_INTEGRITY
    let dce2 := set_auth_level dce1 RPC_C_AUTHN_LEVEL_PKT_PRIVACY
    match c.connectResult with
    | .error _ => .ok none
    | .ok _ =>
      let dce3 : Dce := { dce2 with trace := dce2.trace ++ [.connect] }
      match c.bindResult with
      | .error _ => .error .attributeError
      | .ok _ => .ok (some { dce3 with trace := dce3.trace ++ [.bind] })

/-- The state of a `LAPSv2Extract` instance after `__init__`. -/
structure LAPSv2Params where
  data : Bytes
  username : String
  password : String
  domain : String
  lmhash : String
  nthash : String
  do_kerberos : Bool
deriving DecidableEq, Repr

/-- `LAPSv2Extract.__init__`: splits `ntlm_hash` on `":"` when present
(two-element destructuring), else treats the whole value as the NT hash. -/
def lapsv2Init (data : Bytes) (username password domain ntlm_hash : String)
    (do_kerberos : Bool) : Except PyErr LAPSv2Params :=
  if pyContains ntlm_hash ":" then
    match pySplitOnChar ntlm_hash ':' with
    | [l, n] =>
      .ok { data, username, password, domain, lmhash := l, nthash := n, do_kerberos }
    | _ => .error .valueError
  else
    .ok { data, username, password, domain, lmhash := "", nthash := ntlm_hash, do_kerberos }

/-- `LAPSv2Extract.run`: the LAPS v2 decryption pipeline, translated step by
step from `laps.py` lines 230-265. None of the decode, RPC-call or crypto
steps is wrapped in a `try` inside `run`, so any failure there propagates to
the caller (`Except.error`); the only caught failure is the RPC connect
failure inside `rpc_connect`, which makes `run` return `None` (`Option.none`
inside `Except.ok`). On success the decrypted bytes minus their final 18
bytes are decoded as UTF-16LE and returned. -/
def LAPSv2Extract_run (c : Collab) (p : LAPSv2Params) : Except PyErr (Option String) :=
  match c.unpackBlob p.data with
  | .error pe => .error pe
  | .ok blob =>
  match c.decodeContentInfo blob with
  | .error pe => .error pe
  | .ok (parsed_cms_data, remaining) =>
  match c.decodeEnvelopedData parsed_cms_data.content with
  | .error pe => .error pe
  | .ok (parsed_enveloped_data, _) =>
  match parsed_enveloped_data.recipientInfos.get? 0 with
  | none => .error .indexError
  | some ri0 =>
  let kek_recipient_info := ri0.kekri
  let kek_identifier := kek_recipient_info.kekid
  match c.parseKeyIdentifier kek_identifier.keyIdentifier with
  | .error pe => .error pe
  | .ok key_id =>
  match c.decodeAsn1 kek_identifier.other.keyAttr with
  | .error pe => .error pe
  | .ok (tmp, _) =>
  match extractSidBytes tmp with
  | .error pe => .error pe
  | .ok sidBytes =>
  match utf8Decode sidBytes with
  | .error pe => .error pe
  | .ok sid =>
  let target_sd := c.create_sd sid
  match rpc_connect c p.username p.password p.domain p.lmhash p.nthash
      p.do_kerberos p.domain with
  | .error pe => .error pe
  | .ok none => .ok none
  | .ok (some _dce) =>
  match c.getKey
      { target_sd, l0 := key_id.L0Index, l1 := key_id.L1Index, l2 := key_id.L2Index,
        root_key_id := key_id.RootKeyId } with
  | .error pe => .error pe
  | .ok pbbOut =>
  match c.parseGKE pbbOut.flatten with
  | .error pe => .error pe
  | .ok gke =>
  let kek := c.compute_kek gke key_id
  let enc_content_parameter :=
    parsed_enveloped_data.encryptedContentInfo.contentEncryptionAlgorithm.parameters
  match c.decodeAsn1 enc_content_parameter with
  | .error pe => .error pe
  | .ok (ivVal, _) =>
  match asn1Index ivVal 0 with
  | .error pe => .error pe
  | .ok iv0 =>
  match asOctets iv0 with
  | .error pe => .error pe
  | .ok iv =>
  match c.unwrap_cek kek kek_recipient_info.encryptedKey with
  | .error pe => .error pe
  | .ok cek =>
  match c.decrypt_plaintext cek iv remaining with
  | .error pe => .error pe
  | .ok plaintext =>
  match utf16leDecode (plaintext.take (plaintext.length - 18)) with
  | some s => .ok (some s)
  | none => .error .unicodeDecodeError

/-! ### Supporting lemmas -/

/-- Decoding inverts encoding at the code-unit level. -/
theorem utf16leDecodeAux_encode (cs : List Char) :
    utf16leDecodeAux (cs.flatMap (fun c => [c.toNat % 256, c.toNat / 256])) = some cs := by
  induction cs with
  | nil => rfl
  | cons c cs ih =>
    show (utf16leDecodeAux (cs.flatMap (fun c => [c.toNat % 256, c.toNat / 256]))).map
        (fun l => Char.ofNat (c.toNat % 256 + 256 * (c.toNat / 256)) :: l) = some (c :: cs)
    rw [ih]
    show some (Char.ofNat (c.toNat % 256 + 256 * (c.toNat / 256)) :: cs) = some (c :: cs)
    rw [Nat.mod_add_div, Char.ofNat_toNat]

/-- UTF-16LE round trip on whole strings. -/
theorem utf16le_roundtrip (s : String) : utf16leDecode (utf16leEncode s) = some s := by
  unfold utf16leDecode utf16leEncode
  rw [utf16leDecodeAux_encode]
  rfl

/-- Removing the final 18 bytes of `enc ++ trailer` with an 18-byte trailer
recovers `enc` (this is what `plaintext[:-18]` computes). -/
theorem strip18_append (enc trailer : Bytes) (h : trailer.length = 18) :
    (enc ++ trailer).take ((enc ++ trailer).length - 18) = enc := by
  have hlen : (enc ++ trailer).length - 18 = enc.length := by
    simp [List.length_append, h]
  rw [hlen]
  exact List.take_left enc trailer

/-! ### Concrete demonstration data -/

/-- Demonstration plaintext password. -/
def demoPw : String := "P@ssw0rd!"

/-- Demonstration 18-byte trailer block. -/
def demoTrailer : Bytes := List.replicate 18 0

/-- Demonstration decrypted payload: UTF-16LE password plus 18-byte trailer. -/
def demoPt : Bytes := utf16leEncode demoPw ++ demoTrailer

/-- Demonstration initialisation vector `000102030405060708090a0b0c0d0e0f`. -/
def demoIv : Bytes := [0, 1, 2, 3, 4, 5, 6, 7, 8, 9, 10, 11, 12, 13, 14, 15]

/-- Demonstration SID string. -/
def demoSid : String := "S-1-5-21-1-2-3-500"

/-- Byte form of `demoSid` (ASCII). -/
def demoSidBytes : Bytes := demoSid.data.map Char.toNat

/-- Demonstration decoded key-attribute structure, shaped so that
`tmp['field-1'][0][0][1]` reaches the SID octets. -/
def demoKeyAttr : Asn1 :=
  .seq [.oct [], .seq [.seq [.seq [.oct [], .oct demoSidBytes]]]]

/-- Demonstration parsed key identifier: `(L0, L1, L2) = (1, 0, 0)`. -/
def demoKid : KeyIdentifierS :=
  { L0Index := 1, L1Index := 0, L2Index := 0, RootKeyId := [170] }

/-- Demonstration KEK recipient entry: wrapped CEK `W1 = [8, 8]`. -/
def demoRI : RecipientInfo :=
  { kekri :=
    { kekid := { keyIdentifier := [3, 3], other := { keyAttr := [4, 4] } },
      encryptedKey := [8, 8] } }

/-- Demonstration `EnvelopedData` with the single KEK recipient. -/
def demoED : EnvelopedData :=
  { recipientInfos := [demoRI],
    encryptedContentInfo := { contentEncryptionAlgorithm := { parameters := [6, 6] } } }

/-- A collaborator layer whose decoders, key service and crypto primitives all
behave according to their contracts on the demonstration blob: the key
service returns the root key RK1 (`parseGKE` accepts the returned buffers),
unwrapping the wrapped CEK with the derived KEK yields the CEK, decrypting
the remaining ciphertext yields the padded UTF-16LE password. -/
def demoCollab : Collab :=
  { unpackBlob := fun _ => .ok [1],
    decodeContentInfo := fun _ => .ok ({ content := [7, 7] }, [2, 2, 2]),
    decodeEnvelopedData := fun _ => .ok (demoED, []),
    parseKeyIdentifier := fun _ => .ok demoKid,
    decodeAsn1 := fun b =>
      if b = [4, 4] then .ok (demoKeyAttr, []) else .ok (.seq [.oct demoIv], []),
    create_sd := fun _ => [13],
    hept_map := fun _ => .ok "ncacn_ip_tcp:dc",
    connectResult := .ok (),
    bindResult := .ok (),
    getKey := fun _ => .ok [[5, 5], [5]],
    parseGKE := fun _ => .ok ⟨[5, 5, 5]⟩,
    compute_kek := fun _ _ => [9, 9],
    unwrap_cek := fun _ _ => .ok [1, 2, 3],
    decrypt_plaintext := fun _ _ _ => .ok demoPt }

/-- Demonstration `LAPSv2Extract` instance state. -/
def demoParams : LAPSv2Params :=
  { data := [1], username := "admin", password := "pw", domain := "corp.local",
    lmhash := "", nthash := "", do_kerberos := false }

/-! ### Claims -/

/-- Claim C1: for every well-formed encrypted LAPS blob built from a plaintext
password, when the remote key service returns the correct root key and all
collaborator contracts hold (the decoders return the blob's components, the
connect and bind succeed, unwrapping the wrapped CEK with the KEK derived
from the returned envelope yields the CEK, and decrypting the remaining
ciphertext with that CEK and the extracted IV yields the UTF-16LE password
followed by the 18-byte trailer), `LAPSv2Extract.run` returns exactly the
original plaintext password. -/
theorem c1_run_roundtrip
    (c : Collab) (p : LAPSv2Params) (pw : String) (trailer : Bytes)
    (blob ct rest r1 r2 : Bytes) (ci : ContentInfo) (ed : EnvelopedData)
    (ri : RecipientInfo) (kid : KeyIdentifierS) (tmp : Asn1)
    (sidB : Bytes) (sid : String) (sb : String) (bufs : List Bytes) (gke : GKE)
    (ivrest : List Asn1) (iv cek : Bytes)
    (hu : c.unpackBlob p.data = .ok blob)
    (hci : c.decodeContentInfo blob = .ok (ci, ct))
    (hed : c.decodeEnvelopedData ci.content = .ok (ed, rest))
    (hri : ed.recipientInfos = [ri])
    (hkid : c.parseKeyIdentifier ri.kekri.kekid.keyIdentifier = .ok kid)
    (hka : c.decodeAsn1 ri.kekri.kekid.other.keyAttr = .ok (tmp, r1))
    (hsid : extractSidBytes tmp = .ok sidB)
    (hsid2 : utf8Decode sidB = .ok sid)
    (hhm : c.hept_map p.domain = .ok sb)
    (hconn : c.connectResult = .ok ())
    (hbind : c.bindResult = .ok ())
    (hgk : c.getKey
        { target_sd := c.create_sd sid, l0 := kid.L0Index, l1 := kid.L1Index,
          l2 := kid.L2Index, root_key_id := kid.RootKeyId } = .ok bufs)
    (hgke : c.parseGKE bufs.flatten = .ok gke)
    (hiv : c.decodeAsn1 ed.encryptedContentInfo.contentEncryptionAlgorithm.parameters
        = .ok (Asn1.seq (Asn1.oct iv :: ivrest), r2))
    (hcek : c.unwrap_cek (c.compute_kek gke kid) ri.kekri.encryptedKey = .ok cek)
    (hdec : c.decrypt_plaintext cek iv ct = .ok (utf16leEncode pw ++ trailer))
    (htr : trailer.length = 18) :
    LAPSv2Extract_run c p = .ok (some pw) := by
  simp only [LAPSv2Extract_run, rpc_connect, set_auth_level, asn1Index, asOctets,
    hu, hci, hed, hri, hkid, hka, hsid, hsid2, hhm, hconn, hbind, hgk, hgke, hiv,
    hcek, hdec, List.get?]
  rw [strip18_append (utf16leEncode pw) trailer htr, utf16le_roundtrip]

/-- Witness for C1: the demonstration blob of the spec scenario — key
identifier `(L0, L1, L2) = (1, 0, 0)`, IV `000102030405060708090a0b0c0d0e0f`,
plaintext `"P@ssw0rd!"` padded with an 18-byte trailer — is recovered exactly
by the pipeline. -/
theorem c1_run_roundtrip_witness :
    LAPSv2Extract_run demoCollab demoParams = .ok (some "P@ssw0rd!") :=
  c1_run_roundtrip demoCollab demoParams "P@ssw0rd!" demoTrailer
    [1] [2, 2, 2] [] [] [] { content := [7, 7] } demoED demoRI demoKid demoKeyAttr
    demoSidBytes demoSid "ncacn_ip_tcp:dc" [[5, 5], [5]] ⟨[5, 5, 5]⟩
    [] demoIv [1, 2, 3]
    rfl rfl rfl rfl rfl rfl rfl (by decide) rfl rfl rfl rfl rfl rfl rfl rfl rfl

/-- Collaborators for a truncated CMS input: the first decode raises the
pyasn1 substrate-underrun error. -/
def truncCollab : Collab :=
  { demoCollab with
    decodeContentInfo := fun _ => .error (.decodeErr "SubstrateUnderrunError") }

/-- Collaborators for a CMS input carrying a wrong ASN.1 tag. -/
def wrongTagCollab : Collab :=
  { demoCollab with
    decodeContentInfo := fun _ => .error (.decodeErr "wrong tag") }

/-- Counterexample to C2 as stated: on a CMS input with a wrong ASN.1 tag the
decode failure is NOT converted to a logged no-result return — `run` has no
`try` around its decode steps, so the exception propagates to the caller. -/
theorem c2_counterexample :
    LAPSv2Extract_run wrongTagCollab demoParams = .error (PyErr.decodeErr "wrong tag") := by
  decide

/-- Claim C2 (amended): for every malformed CMS input, the pipeline aborts at
the decode stage and produces no result, but the failure is not caught at the
operation boundary: the decode exception propagates out of
`LAPSv2Extract.run` to the caller. Only an RPC connect failure is caught and
converted to a logged no-result return. -/
theorem c2_decode_failure_propagates
    (c : Collab) (p : LAPSv2Params) (b : Bytes) (e : PyErr)
    (hu : c.unpackBlob p.data = .ok b)
    (hd : c.decodeContentInfo b = .error e) :
    LAPSv2Extract_run c p = .error e := by
  simp only [LAPSv2Extract_run, hu, hd]

/-- Witness for the amended C2 at a truncated input. -/
theorem c2_decode_failure_propagates_witness :
    LAPSv2Extract_run truncCollab demoParams
      = .error (PyErr.decodeErr "SubstrateUnderrunError") :=
  c2_decode_failure_propagates truncCollab demoParams [1]
    (PyErr.decodeErr "SubstrateUnderrunError") rfl rfl

/-- Collaborators whose GKDI bind step fails. -/
def bindFailCollab : Collab :=
  { demoCollab with bindResult := .error "rpc_s_access_denied" }

/-- Collaborators whose RPC connect step fails. -/
def connFailCollab : Collab :=
  { demoCollab with connectResult := .error "connection refused" }

/-- Claim C3 evidence: a connect failure is caught and turned into `None` as
claimed, but a bind failure makes `rpc_connect` raise `AttributeError`: the
`except` handler's first statement is `traceback.self.logger.info_stack()`,
and the attribute lookup `traceback.self` raises before the handler can log
or reach its `return None`, so the bind failure escapes as an uncaught
secondary fault. -/
theorem c3_bind_failure_crashes :
    rpc_connect connFailCollab "admin" "pw" "corp.local" "" "" false "corp.local"
        = .ok none ∧
    rpc_connect bindFailCollab "admin" "pw" "corp.local" "" "" false "corp.local"
        = .error PyErr.attributeError := by
  decide

/-- With at least two whitespace tokens the handler logs the classified
record built from the second-to-last token minus its final character. -/
theorem classifyFail_ok (d u s e : String) (h : 2 ≤ (pySplitWs e).length) :
    classifyFail d u s e
      = .ok (pyFailEntry d u s (strDropLast (secondToLast (pySplitWs e)))) := by
  unfold classifyFail pyExtractErrorCode
  rw [if_neg (by omega)]

/-- With fewer than two whitespace tokens the handler itself raises. -/
theorem classifyFail_raises (d u s e : String) (h : (pySplitWs e).length < 2) :
    classifyFail d u s e = .error .indexError := by
  unfold classifyFail pyExtractErrorCode
  rw [if_pos h]

/-- The oracle of the C4 counterexample: the plaintext bind is rejected with
`strongerAuthRequired`, the encrypted retry is rejected with a one-token
error text. -/
def c4Oracle : LdapOracle := fun a =>
  if a.url = "ldaps://corp.local" then .sessionError "bad"
  else .sessionError "strongerAuthRequired"

/-- Counterexample to C4 as stated: after the single retry fails with a
one-token error text, `auth_login` does not report a failure and return — the
handler's code extraction raises `IndexError`, which propagates.  Exactly two
bind attempts are still performed. -/
theorem c4_counterexample :
    (auth_login c4Oracle "corp.local" "admin" "pw" "").result
        = .error PyErr.indexError ∧
    (auth_login c4Oracle "corp.local" "admin" "pw" "").logs = [] ∧
    (auth_login c4Oracle "corp.local" "admin" "pw" "").attempts.length = 2 := by
  decide

/-- Claim C4 (amended): a `strongerAuthRequired` rejection on the plaintext
transport triggers exactly one retry over the encrypted transport — the
attempt trace is exactly the plaintext attempt followed by the encrypted
attempt, whatever the retry's outcome, so no further retry ever happens; and
when the retry fails with a session error whose text has at least two
whitespace-separated tokens, the operation logs one classified failure record
and returns `False` (with a degenerate shorter error text the handler itself
raises `IndexError` instead of returning). -/
theorem c4_single_retry
    (o : LdapOracle) (domain username password ntlm_hash lmhash nthash : String)
    (e1 : String)
    (hparse : parseNtlmHash ntlm_hash = .ok (lmhash, nthash))
    (h1 : o (authAttempt1 domain username password lmhash nthash) = .sessionError e1)
    (hs : pyContains e1 "strongerAuthRequired" = true) :
    (auth_login o domain username password ntlm_hash).attempts
        = [authAttempt1 domain username password lmhash nthash,
           authAttempt2 domain username password lmhash nthash] ∧
    (∀ e2, o (authAttempt2 domain username password lmhash nthash) = .sessionError e2 →
      2 ≤ (pySplitWs e2).length →
      (auth_login o domain username password ntlm_hash).result = .ok .failedFalse ∧
      (auth_login o domain username password ntlm_hash).logs
        = [pyFailEntry domain username (secretOf password ntlm_hash)
            (strDropLast (secondToLast (pySplitWs e2)))]) := by
  constructor
  · cases h2 : o (authAttempt2 domain username password lmhash nthash) with
    | ok => simp [auth_login, hparse, h1, hs, h2]
    | sessionError e2 =>
      cases hcf : classifyFail domain username (secretOf password ntlm_hash) e2 with
      | error pe => simp [auth_login, hparse, h1, hs, h2, hcf]
      | ok entry => simp [auth_login, hparse, h1, hs, h2, hcf]
    | osError m => simp [auth_login, hparse, h1, hs, h2]
    | kerbError m => simp [auth_login, hparse, h1, hs, h2]
  · intro e2 h2 hlen
    have hcf := classifyFail_ok domain username (secretOf password ntlm_hash) e2 hlen
    constructor
    · simp [auth_login, hparse, h1, hs, h2, hcf]
    · simp [auth_login, hparse, h1, hs, h2, hcf]

/-- The oracle of the C4 witness: the retry is rejected with the realistic
multi-token error text `"data 775, v1db1"`. -/
def c4wOracle : LdapOracle := fun a =>
  if a.url = "ldaps://corp.local" then .sessionError "data 775, v1db1"
  else .sessionError "strongerAuthRequired"

/-- Witness for the amended C4: one retry, then a classified failure
(`775` maps to `USER_ACCOUNT_LOCKED`) and a `False` return. -/
theorem c4_single_retry_witness :
    (auth_login c4wOracle "corp.local" "admin" "pw" "").attempts
        = [authAttempt1 "corp.local" "admin" "pw" "" "",
           authAttempt2 "corp.local" "admin" "pw" "" ""] ∧
    (auth_login c4wOracle "corp.local" "admin" "pw" "").result = .ok .failedFalse ∧
    (auth_login c4wOracle "corp.local" "admin" "pw" "").logs
        = [pyFailEntry "corp.local" "admin" "pw" "775"] := by
  have h := c4_single_retry c4wOracle "corp.local" "admin" "pw" "" "" ""
    "strongerAuthRequired" rfl (by decide) (by decide)
  have h2 := h.2 "data 775, v1db1" (by decide) (by decide)
  exact ⟨h.1, h2.1, h2.2.trans (by decide)⟩

/-- The oracle of the C5 evidence: the ticket-based plaintext bind is
rejected with `strongerAuthRequired`; everything else succeeds. -/
def c5Oracle : LdapOracle := fun a =>
  if a.method = AuthMethod.kerberosLoginM then .sessionError "strongerAuthRequired"
  else .ok

/-- Claim C5 evidence: on a `strongerAuthRequired` rejection of a Kerberos
login, the source retries over the encrypted transport with identical
credential arguments but via `login` — the ticket-based `kerberosLogin` mode
is NOT preserved, contradicting the transport-only-escalation claim (while
still passing the kerberosLogin-style arguments `aesKey`, `kdcHost` and
`useCache` to `login`). -/
theorem c5_retry_switches_method :
    (kerberos_login c5Oracle "corp.local" "admin" "pw" "" "" none false).attempts
        = [kerbAttempt1 "corp.local" "admin" "pw" "" "" "" "corp.local",
           kerbAttempt2 "corp.local" "admin" "pw" "" "" "" "corp.local"] ∧
    (kerbAttempt1 "corp.local" "admin" "pw" "" "" "" "corp.local").method
        = AuthMethod.kerberosLoginM ∧
    (kerbAttempt2 "corp.local" "admin" "pw" "" "" "" "corp.local").method
        = AuthMethod.loginM ∧
    (kerbAttempt2 "corp.local" "admin" "pw" "" "" "" "corp.local")
        = { kerbAttempt1 "corp.local" "admin" "pw" "" "" "" "corp.local" with
            url := "ldaps://corp.local", method := AuthMethod.loginM } := by
  decide

/-- The oracle of the C6/C10 witnesses: every bind is rejected with a
session error carrying status code 775 (account locked). -/
def c6Oracle : LdapOracle := fun _ => .sessionError "data 775, v1db1"

/-- Claim C6: for every protocol-level authentication rejection (other than
the transport-escalation one) whose extracted status code is a key of
`ldap_error_status`, both `auth_login` and `kerberos_login` report exactly the
classification string the table maps the code to (in magenta); for every code
absent from the table they report a generic failure with an empty
classification (in red). -/
theorem c6_status_classification
    (o : LdapOracle) (domain username password ntlm_hash lmhash nthash aesKey : String)
    (kdcHost : Option String) (uc : Bool) (e : String)
    (hparse : parseNtlmHash ntlm_hash = .ok (lmhash, nthash))
    (ha : o (authAttempt1 domain username password lmhash nthash) = .sessionError e)
    (hk : o (kerbAttempt1 domain username password lmhash nthash aesKey (kdcHost.getD domain))
        = .sessionError e)
    (hs : pyContains e "strongerAuthRequired" = false)
    (hlen : 2 ≤ (pySplitWs e).length) :
    (∀ cls, lookupStatus (strDropLast (secondToLast (pySplitWs e))) = some cls →
      (auth_login o domain username password ntlm_hash).logs
          = [.fail (failMsg domain username (secretOf password ntlm_hash) cls) "magenta"] ∧
      (kerberos_login o domain username password ntlm_hash aesKey kdcHost uc).logs
          = [.fail (failMsg domain username (secretOf password ntlm_hash) cls) "magenta"]) ∧
    (lookupStatus (strDropLast (secondToLast (pySplitWs e))) = none →
      (auth_login o domain username password ntlm_hash).logs
          = [.fail (failMsg domain username (secretOf password ntlm_hash) "") "red"] ∧
      (kerberos_login o domain username password ntlm_hash aesKey kdcHost uc).logs
          = [.fail (failMsg domain username (secretOf password ntlm_hash) "") "red"]) := by
  have hcf := classifyFail_ok domain username (secretOf password ntlm_hash) e hlen
  constructor
  · intro cls hcls
    constructor
    · simp [auth_login, hparse, ha, hs, hcf, pyFailEntry, hcls]
    · simp [kerberos_login, hparse, hk, hs, hcf, pyFailEntry, hcls]
  · intro hcls
    constructor
    · simp [auth_login, hparse, ha, hs, hcf, pyFailEntry, hcls]
    · simp [kerberos_login, hparse, hk, hs, hcf, pyFailEntry, hcls]

/-- Witness for C6: status code 775 is classified as `USER_ACCOUNT_LOCKED` by
both login functions. -/
theorem c6_status_classification_witness :
    (auth_login c6Oracle "corp.local" "admin" "pw" "").logs
        = [.fail (failMsg "corp.local" "admin" "pw" "USER_ACCOUNT_LOCKED") "magenta"] ∧
    (kerberos_login c6Oracle "corp.local" "admin" "pw" "" "" none false).logs
        = [.fail (failMsg "corp.local" "admin" "pw" "USER_ACCOUNT_LOCKED") "magenta"] :=
  (c6_status_classification c6Oracle "corp.local" "admin" "pw" "" "" "" "" none false
    "data 775, v1db1" rfl rfl rfl (by decide) (by decide)).1
    "USER_ACCOUNT_LOCKED" (by decide)

/-- Claim C7: whenever the pipeline reaches the decrypt step and it produces
a byte sequence `pt`, `LAPSv2Extract.run` returns exactly `pt` with its last
18 bytes removed, decoded as UTF-16LE — the 18-byte block is stripped
regardless of the decrypted content. -/
theorem c7_trailer_strip
    (c : Collab) (p : LAPSv2Params)
    (blob ct rest r1 r2 : Bytes) (ci : ContentInfo) (ed : EnvelopedData)
    (ri : RecipientInfo) (kid : KeyIdentifierS) (tmp : Asn1)
    (sidB : Bytes) (sid : String) (sb : String) (bufs : List Bytes) (gke : GKE)
    (ivrest : List Asn1) (iv cek pt : Bytes) (s : String)
    (hu : c.unpackBlob p.data = .ok blob)
    (hci : c.decodeContentInfo blob = .ok (ci, ct))
    (hed : c.decodeEnvelopedData ci.content = .ok (ed, rest))
    (hri : ed.recipientInfos = [ri])
    (hkid : c.parseKeyIdentifier ri.kekri.kekid.keyIdentifier = .ok kid)
    (hka : c.decodeAsn1 ri.kekri.kekid.other.keyAttr = .ok (tmp, r1))
    (hsid : extractSidBytes tmp = .ok sidB)
    (hsid2 : utf8Decode sidB = .ok sid)
    (hhm : c.hept_map p.domain = .ok sb)
    (hconn : c.connectResult = .ok ())
    (hbind : c.bindResult = .ok ())
    (hgk : c.getKey
        { target_sd := c.create_sd sid, l0 := kid.L0Index, l1 := kid.L1Index,
          l2 := kid.L2Index, root_key_id := kid.RootKeyId } = .ok bufs)
    (hgke : c.parseGKE bufs.flatten = .ok gke)
    (hiv : c.decodeAsn1 ed.encryptedContentInfo.contentEncryptionAlgorithm.parameters
        = .ok (Asn1.seq (Asn1.oct iv :: ivrest), r2))
    (hcek : c.unwrap_cek (c.compute_kek gke kid) ri.kekri.encryptedKey = .ok cek)
    (hdec : c.decrypt_plaintext cek iv ct = .ok pt)
    (hdecode : utf16leDecode (pt.take (pt.length - 18)) = some s) :
    LAPSv2Extract_run c p = .ok (some s) := by
  simp only [LAPSv2Extract_run, rpc_connect, set_auth_level, asn1Index, asOctets,
    hu, hci, hed, hri, hkid, hka, hsid, hsid2, hhm, hconn, hbind, hgk, hgke, hiv,
    hcek, hdec, hdecode, List.get?]

/-- Collaborators identical to `demoCollab` but whose decrypt step yields the
padded encoding of `"ABC"`. -/
def c7Collab : Collab :=
  { demoCollab with
    decrypt_plaintext := fun _ _ _ => .ok (utf16leEncode "ABC" ++ demoTrailer) }

/-- Witness for C7: the decrypted bytes `utf16leEncode "ABC" ++ 18-byte
trailer` come back as exactly `"ABC"`. -/
theorem c7_trailer_strip_witness :
    LAPSv2Extract_run c7Collab demoParams = .ok (some "ABC") :=
  c7_trailer_strip c7Collab demoParams
    [1] [2, 2, 2] [] [] [] { content := [7, 7] } demoED demoRI demoKid demoKeyAttr
    demoSidBytes demoSid "ncacn_ip_tcp:dc" [[5, 5], [5]] ⟨[5, 5, 5]⟩
    [] demoIv [1, 2, 3] (utf16leEncode "ABC" ++ demoTrailer) "ABC"
    rfl rfl rfl rfl rfl rfl rfl (by decide) rfl rfl rfl rfl rfl rfl rfl rfl
    (by decide)

/-- Claim C8: every channel returned by a successful `rpc_connect` was
configured with `set_auth_level(RPC_C_AUTHN_LEVEL_PKT_INTEGRITY)` and then
`set_auth_level(RPC_C_AUTHN_LEVEL_PKT_PRIVACY)` before the connect and bind
operations (the channel's effective auth level being PKT_PRIVACY, which in
DCERPC subsumes per-packet integrity). -/
theorem c8_auth_levels_before_connect
    (c : Collab) (u p d l n : String) (k : Bool) (h : String) (dce : Dce)
    (hr : rpc_connect c u p d l n k h = .ok (some dce)) :
    dce.trace
      = [RpcEvent.setCredentials u p d l n]
        ++ (if k then [RpcEvent.setKerberos h] else [])
        ++ (if h ≠ "" then [RpcEvent.setRemoteHost h] else [])
        ++ [RpcEvent.setAuthLevel RPC_C_AUTHN_LEVEL_PKT_INTEGRITY,
            RpcEvent.setAuthLevel RPC_C_AUTHN_LEVEL_PKT_PRIVACY,
            RpcEvent.connect, RpcEvent.bind] ∧
    dce.authLevel = RPC_C_AUTHN_LEVEL_PKT_PRIVACY := by
  unfold rpc_connect at hr
  cases hm : c.hept_map h with
  | error pe => rw [hm] at hr; cases hr
  | ok sbind =>
    rw [hm] at hr
    cases hc : c.connectResult with
    | error m => rw [hc] at hr; simp at hr
    | ok u' =>
      rw [hc] at hr
      cases hb : c.bindResult with
      | error m => rw [hb] at hr; simp at hr
      | ok u'' =>
        rw [hb] at hr
        simp only [Except.ok.injEq, Option.some.injEq] at hr
        subst hr
        constructor
        · simp [set_auth_level]
        · rfl

/-- Witness for C8: the successful demonstration connection carries both
`set_auth_level` events before its connect and bind events. -/
theorem c8_auth_levels_before_connect_witness :
    ({ authLevel := RPC_C_AUTHN_LEVEL_PKT_PRIVACY,
       trace := [RpcEvent.setCredentials "admin" "pw" "corp.local" "" "",
                 RpcEvent.setRemoteHost "corp.local",
                 RpcEvent.setAuthLevel RPC_C_AUTHN_LEVEL_PKT_INTEGRITY,
                 RpcEvent.setAuthLevel RPC_C_AUTHN_LEVEL_PKT_PRIVACY,
                 RpcEvent.connect, RpcEvent.bind] } : Dce).trace
      = [RpcEvent.setCredentials "admin" "pw" "corp.local" "" ""]
        ++ (if false then [RpcEvent.setKerberos "corp.local"] else [])
        ++ (if "corp.local" ≠ "" then [RpcEvent.setRemoteHost "corp.local"] else [])
        ++ [RpcEvent.setAuthLevel RPC_C_AUTHN_LEVEL_PKT_INTEGRITY,
            RpcEvent.setAuthLevel RPC_C_AUTHN_LEVEL_PKT_PRIVACY,
            RpcEvent.connect, RpcEvent.bind] ∧
    ({ authLevel := RPC_C_AUTHN_LEVEL_PKT_PRIVACY,
       trace := [RpcEvent.setCredentials "admin" "pw" "corp.local" "" "",
                 RpcEvent.setRemoteHost "corp.local",
                 RpcEvent.setAuthLevel RPC_C_AUTHN_LEVEL_PKT_INTEGRITY,
                 RpcEvent.setAuthLevel RPC_C_AUTHN_LEVEL_PKT_PRIVACY,
                 RpcEvent.connect, RpcEvent.bind] } : Dce).authLevel
      = RPC_C_AUTHN_LEVEL_PKT_PRIVACY :=
  c8_auth_levels_before_connect demoCollab "admin" "pw" "corp.local" "" "" false
    "corp.local" _ (by decide)

/-- Claim C9: `kerberos_login` never consults its `useCache` parameter — two
calls differing only in that argument are observably identical (same result,
attempts and logs) — and both underlying bind invocations pass the literal
`useCache=False` to the directory client. -/
theorem c9_useCache_never_consulted
    (o : LdapOracle) (domain username password ntlm_hash aesKey : String)
    (kdcHost : Option String) (uc1 uc2 : Bool)
    (lmhash nthash kdc : String) :
    kerberos_login o domain username password ntlm_hash aesKey kdcHost uc1
      = kerberos_login o domain username password ntlm_hash aesKey kdcHost uc2 ∧
    (kerbAttempt1 domain username password lmhash nthash aesKey kdc).useCache
      = some false ∧
    (kerbAttempt2 domain username password lmhash nthash aesKey kdc).useCache
      = some false :=
  ⟨rfl, rfl, rfl⟩

/-- Claim C10: in the rejection handlers of `auth_login` and
`kerberos_login`, the numeric error code is extracted as the second-to-last
whitespace-separated token of the exception text with its final character
dropped (and that code drives the logged classification); when the text has
fewer than two whitespace-separated tokens the handler itself raises
`IndexError`, so the function neither logs a classified failure nor returns
`False`. -/
theorem c10_extraction_and_indexerror
    (o : LdapOracle) (domain username password ntlm_hash lmhash nthash aesKey : String)
    (kdcHost : Option String) (uc : Bool) (e : String)
    (hparse : parseNtlmHash ntlm_hash = .ok (lmhash, nthash))
    (ha : o (authAttempt1 domain username password lmhash nthash) = .sessionError e)
    (hk : o (kerbAttempt1 domain username password lmhash nthash aesKey (kdcHost.getD domain))
        = .sessionError e)
    (hs : pyContains e "strongerAuthRequired" = false) :
    ((pySplitWs e).length < 2 →
      (auth_login o domain username password ntlm_hash).result = .error .indexError ∧
      (auth_login o domain username password ntlm_hash).logs = [] ∧
      (kerberos_login o domain username password ntlm_hash aesKey kdcHost uc).result
          = .error .indexError ∧
      (kerberos_login o domain username password ntlm_hash aesKey kdcHost uc).logs = []) ∧
    (2 ≤ (pySplitWs e).length →
      (auth_login o domain username password ntlm_hash).result = .ok .failedFalse ∧
      (auth_login o domain username password ntlm_hash).logs
          = [pyFailEntry domain username (secretOf password ntlm_hash)
              (strDropLast (secondToLast (pySplitWs e)))] ∧
      (kerberos_login o domain username password ntlm_hash aesKey kdcHost uc).result
          = .ok .failedFalse ∧
      (kerberos_login o domain username password ntlm_hash aesKey kdcHost uc).logs
          = [pyFailEntry domain username (secretOf password ntlm_hash)
              (strDropLast (secondToLast (pySplitWs e)))]) := by
  constructor
  · intro hlen
    have hcf := classifyFail_raises domain username (secretOf password ntlm_hash) e hlen
    refine ⟨?_, ?_, ?_, ?_⟩ <;>
      simp [auth_login, kerberos_login, hparse, ha, hk, hs, hcf]
  · intro hlen
    have hcf := classifyFail_ok domain username (secretOf password ntlm_hash) e hlen
    refine ⟨?_, ?_, ?_, ?_⟩ <;>
      simp [auth_login, kerberos_login, hparse, ha, hk, hs, hcf]

/-- The oracle of the C10 witness: every bind is rejected with the one-token
error text `"denied"`. -/
def c10Oracle : LdapOracle := fun _ => .sessionError "denied"

/-- Witness for C10: with a one-token exception text both login functions
raise `IndexError` and log nothing. -/
theorem c10_extraction_and_indexerror_witness :
    (auth_login c10Oracle "corp.local" "admin" "pw" "").result
        = .error .indexError ∧
    (auth_login c10Oracle "corp.local" "admin" "pw" "").logs = [] ∧
    (kerberos_login c10Oracle "corp.local" "admin" "pw" "" "" none false).result
        = .error .indexError ∧
    (kerberos_login c10Oracle "corp.local" "admin" "pw" "" "" none false).logs = [] :=
  (c10_extraction_and_indexerror c10Oracle "corp.local" "admin" "pw" "" "" "" ""
    none false "denied" rfl rfl rfl (by decide)).1 (by decide)
